import Mathlib

set_option autoImplicit false

/-!
Verification of the `neutral_atom_vm` Python package (client-side job,
device and QEC helpers) against its natural-language specification.

The Python code is shallowly embedded: every definition below transcribes a
function from `src/python/src/neutral_atom_vm/` (the source file and symbol
are named in each doc comment).  Python floats are modelled as exact
rationals (none of the transcribed code performs rounding-sensitive
arithmetic: it copies, compares and divides values), machine dictionaries as
association lists with string keys, and raised exceptions as `Except` errors.
-/

namespace NeutralAtomVM

instance {ε α : Type} [DecidableEq ε] [DecidableEq α] : DecidableEq (Except ε α) := fun a b =>
  match a, b with
  | .error e, .error f =>
    if h : e = f then .isTrue (by rw [h]) else .isFalse (fun hh => h (by cases hh; rfl))
  | .error _, .ok _ => .isFalse (fun hh => Except.noConfusion hh)
  | .ok _, .error _ => .isFalse (fun hh => Except.noConfusion hh)
  | .ok x, .ok y =>
    if h : x = y then .isTrue (by rw [h]) else .isFalse (fun hh => h (by cases hh; rfl))

/-- Python exception classes raised by the modelled code paths. -/
inductive PyErr where
  | typeError (msg : String)
  | valueError (msg : String)
  | importError (name : String)
  | nameError (name : String)
  | osError (msg : String)
  | remoteServiceError (msg : String)
  deriving Repr, DecidableEq

/-- Python runtime values as they appear in the job/config dictionaries:
`None`, booleans, ints, floats (modelled as exact rationals), strings, lists
and string-keyed dicts.  This is the value universe over which the claims
about dictionary-shaped inputs are stated. -/
inductive PyVal where
  | none
  | bool (b : Bool)
  | int (n : ℤ)
  | float (q : ℚ)
  | str (s : String)
  | list (xs : List PyVal)
  | dict (entries : List (String × PyVal))
  deriving Repr

namespace PyVal

/-- Python `v == s` for a string literal `s`: true exactly when `v` is that
string (no non-string value of the modelled universe compares equal to a
string). -/
def isStr (v : PyVal) (s : String) : Bool :=
  match v with
  | .str t => t = s
  | _ => false

/-- `d.get(k)` on a Python dict: first binding of the key, if any. -/
def get (entries : List (String × PyVal)) (k : String) : Option PyVal :=
  entries.lookup k

/-- `d.get(k, default)` on a Python dict. -/
def getD (entries : List (String × PyVal)) (k : String) (default : PyVal) : PyVal :=
  (get entries k).getD default

/-- Python truthiness (`bool(v)`) for the modelled value universe. -/
def truthy : PyVal → Bool
  | .none => false
  | .bool b => b
  | .int n => n ≠ 0
  | .float q => q ≠ 0
  | .str s => s ≠ ""
  | .list xs => !xs.isEmpty
  | .dict es => !es.isEmpty

/-- `isinstance(v, Mapping)`: the entries when `v` is a dict. -/
def mapping? : PyVal → Option (List (String × PyVal))
  | .dict es => some es
  | _ => Option.none

/-- `isinstance(v, Sequence)` together with `list(v)`: lists yield their
elements and strings yield their characters (each a one-character string);
every other value is not a `Sequence`. -/
def seq? : PyVal → Option (List PyVal)
  | .list xs => some xs
  | .str s => some (s.toList.map fun c => .str (String.mk [c]))
  | _ => Option.none

end PyVal

/-- Python's `float(v)` builtin on the modelled universe.  Booleans and ints
convert to their numeric value, floats are returned unchanged, `None`, lists
and dicts raise `TypeError`.  String-to-float parsing of numeric literals is
not modelled: `float` on a string is mapped to the `ValueError` that Python
raises for non-numeric strings, and no theorem below depends on converting a
string to a float. -/
def pyFloat : PyVal → Except PyErr ℚ
  | .bool b => .ok (if b then 1 else 0)
  | .int n => .ok (n : ℚ)
  | .float q => .ok q
  | .str _ => .error (.typeError "could not convert string to float")
  | _ => .error (.typeError "float() argument must be a string or a real number")

/-- `job.py::_to_float`: `None` maps to the default, anything else goes
through `float`. -/
def toFloat (value : PyVal) (default : ℚ := 0) : Except PyErr ℚ :=
  match value with
  | .none => .ok default
  | v => pyFloat v

/-!
### `job.py::TwoQubitCorrelatedPauliConfig`  (claim C6)
-/

/-- The all-zero row used by `TwoQubitCorrelatedPauliConfig`. -/
def zeroRow : List ℚ := [0, 0, 0, 0]

/-- The default all-zero 4×4 matrix of `TwoQubitCorrelatedPauliConfig`. -/
def zeroMatrix : List (List ℚ) := [zeroRow, zeroRow, zeroRow, zeroRow]

/-- `job.py::TwoQubitCorrelatedPauliConfig` (a frozen dataclass).  The
`matrix` field is annotated in Python as a 4-tuple of 4-tuples of floats, but
the annotation is not enforced by the constructor, so the field is modelled
as an arbitrary list of rows. -/
structure TwoQubitCorrelatedPauliConfig where
  matrix : List (List ℚ) := zeroMatrix
  deriving Repr, DecidableEq

namespace TwoQubitCorrelatedPauliConfig

/-- `TwoQubitCorrelatedPauliConfig.to_dict`. -/
def to_dict (c : TwoQubitCorrelatedPauliConfig) : List (String × PyVal) :=
  [("matrix", .list (c.matrix.map fun row => .list (row.map PyVal.float)))]

/-- One row of `TwoQubitCorrelatedPauliConfig.from_mapping`'s loop body:
non-sequence rows become the zero row, otherwise the first four entries are
converted with `_to_float` and missing entries read as `0.0`. -/
def convRow (row : PyVal) : Except PyErr (List ℚ) :=
  match row.seq? with
  | Option.none => .ok zeroRow
  | some raw =>
      (List.range 4).mapM fun i =>
        if h : i < raw.length then toFloat (raw.get ⟨i, h⟩) else .ok 0

/-- The `while len(rows) < 4: rows.append(zero)` / `rows[:4]` normalization
at the end of `from_mapping`. -/
def padRows (rows : List (List ℚ)) : List (List ℚ) :=
  (rows ++ List.replicate (4 - rows.length) zeroRow).take 4

/-- `TwoQubitCorrelatedPauliConfig.from_mapping`. -/
def from_mapping (m : List (String × PyVal)) :
    Except PyErr TwoQubitCorrelatedPauliConfig :=
  match ((PyVal.get m "matrix").getD .none).seq? with
  | some rows => do
      let converted ← rows.mapM convRow
      .ok ⟨padRows converted⟩
  | Option.none => .ok ⟨zeroMatrix⟩

end TwoQubitCorrelatedPauliConfig

/-!
### `job.py` noise configuration records  (claims C10, C4)
-/

/-- `job.py::MeasurementNoiseConfig`. -/
structure MeasurementNoiseConfig where
  p_flip0_to_1 : ℚ := 0
  p_flip1_to_0 : ℚ := 0
  deriving Repr, DecidableEq

/-- `MeasurementNoiseConfig.to_dict`. -/
def MeasurementNoiseConfig.to_dict (c : MeasurementNoiseConfig) : List (String × PyVal) :=
  [("p_flip0_to_1", .float c.p_flip0_to_1),
   ("p_flip1_to_0", .float c.p_flip1_to_0)]

/-- `MeasurementNoiseConfig.from_mapping`. -/
def MeasurementNoiseConfig.from_mapping (m : List (String × PyVal)) :
    Except PyErr MeasurementNoiseConfig := do
  let p0 ← toFloat (PyVal.getD m "p_flip0_to_1" .none)
  let p1 ← toFloat (PyVal.getD m "p_flip1_to_0" .none)
  .ok { p_flip0_to_1 := p0, p_flip1_to_0 := p1 }

/-- `job.py::SingleQubitPauliConfig`. -/
structure SingleQubitPauliConfig where
  px : ℚ := 0
  py : ℚ := 0
  pz : ℚ := 0
  deriving Repr, DecidableEq

/-- `SingleQubitPauliConfig.to_dict`. -/
def SingleQubitPauliConfig.to_dict (c : SingleQubitPauliConfig) : List (String × PyVal) :=
  [("px", .float c.px), ("py", .float c.py), ("pz", .float c.pz)]

/-- `SingleQubitPauliConfig.from_mapping`. -/
def SingleQubitPauliConfig.from_mapping (m : List (String × PyVal)) :
    Except PyErr SingleQubitPauliConfig := do
  let px ← toFloat (PyVal.getD m "px" .none)
  let py ← toFloat (PyVal.getD m "py" .none)
  let pz ← toFloat (PyVal.getD m "pz" .none)
  .ok { px := px, py := py, pz := pz }

/-- `job.py::GateNoiseConfig`. -/
structure GateNoiseConfig where
  single_qubit : SingleQubitPauliConfig := {}
  two_qubit_control : SingleQubitPauliConfig := {}
  two_qubit_target : SingleQubitPauliConfig := {}
  deriving Repr, DecidableEq

/-- `GateNoiseConfig.to_dict`. -/
def GateNoiseConfig.to_dict (c : GateNoiseConfig) : List (String × PyVal) :=
  [("single_qubit", .dict c.single_qubit.to_dict),
   ("two_qubit_control", .dict c.two_qubit_control.to_dict),
   ("two_qubit_target", .dict c.two_qubit_target.to_dict)]

/-- `mapping.get(k)` followed by the `isinstance(v, Mapping)` guard used by
the `from_mapping` constructors: the sub-mapping when the value is a dict,
otherwise the empty mapping `{}`. -/
def subMapping (m : List (String × PyVal)) (k : String) : List (String × PyVal) :=
  match (PyVal.get m k).getD .none with
  | .dict es => es
  | _ => []

/-- `GateNoiseConfig.from_mapping`. -/
def GateNoiseConfig.from_mapping (m : List (String × PyVal)) :
    Except PyErr GateNoiseConfig := do
  let single ← SingleQubitPauliConfig.from_mapping (subMapping m "single_qubit")
  let control ← SingleQubitPauliConfig.from_mapping (subMapping m "two_qubit_control")
  let target ← SingleQubitPauliConfig.from_mapping (subMapping m "two_qubit_target")
  .ok { single_qubit := single, two_qubit_control := control, two_qubit_target := target }

/-- `job.py::LossRuntimeConfig`. -/
structure LossRuntimeConfig where
  per_gate : ℚ := 0
  idle_rate : ℚ := 0
  deriving Repr, DecidableEq

/-- `LossRuntimeConfig.to_dict`. -/
def LossRuntimeConfig.to_dict (c : LossRuntimeConfig) : List (String × PyVal) :=
  [("per_gate", .float c.per_gate), ("idle_rate", .float c.idle_rate)]

/-- `LossRuntimeConfig.from_mapping`. -/
def LossRuntimeConfig.from_mapping (m : List (String × PyVal)) :
    Except PyErr LossRuntimeConfig := do
  let pg ← toFloat (PyVal.getD m "per_gate" .none)
  let ir ← toFloat (PyVal.getD m "idle_rate" .none)
  .ok { per_gate := pg, idle_rate := ir }

/-- `job.py::PhaseNoiseConfig`. -/
structure PhaseNoiseConfig where
  single_qubit : ℚ := 0
  two_qubit_control : ℚ := 0
  two_qubit_target : ℚ := 0
  idle : ℚ := 0
  deriving Repr, DecidableEq

/-- `PhaseNoiseConfig.to_dict`. -/
def PhaseNoiseConfig.to_dict (c : PhaseNoiseConfig) : List (String × PyVal) :=
  [("single_qubit", .float c.single_qubit),
   ("two_qubit_control", .float c.two_qubit_control),
   ("two_qubit_target", .float c.two_qubit_target),
   ("idle", .float c.idle)]

/-- `PhaseNoiseConfig.from_mapping`. -/
def PhaseNoiseConfig.from_mapping (m : List (String × PyVal)) :
    Except PyErr PhaseNoiseConfig := do
  let sq ← toFloat (PyVal.getD m "single_qubit" .none)
  let tc ← toFloat (PyVal.getD m "two_qubit_control" .none)
  let tt ← toFloat (PyVal.getD m "two_qubit_target" .none)
  let idle ← toFloat (PyVal.getD m "idle" .none)
  .ok { single_qubit := sq, two_qubit_control := tc, two_qubit_target := tt, idle := idle }

/-- `job.py::AmplitudeDampingConfig`. -/
structure AmplitudeDampingConfig where
  per_gate : ℚ := 0
  idle_rate : ℚ := 0
  deriving Repr, DecidableEq

/-- `AmplitudeDampingConfig.to_dict`. -/
def AmplitudeDampingConfig.to_dict (c : AmplitudeDampingConfig) : List (String × PyVal) :=
  [("per_gate", .float c.per_gate), ("idle_rate", .float c.idle_rate)]

/-- `AmplitudeDampingConfig.from_mapping`. -/
def AmplitudeDampingConfig.from_mapping (m : List (String × PyVal)) :
    Except PyErr AmplitudeDampingConfig := do
  let pg ← toFloat (PyVal.getD m "per_gate" .none)
  let ir ← toFloat (PyVal.getD m "idle_rate" .none)
  .ok { per_gate := pg, idle_rate := ir }

/-- `job.py::SimpleNoiseConfig`. -/
structure SimpleNoiseConfig where
  p_quantum_flip : ℚ := 0
  p_loss : ℚ := 0
  readout : MeasurementNoiseConfig := {}
  gate : GateNoiseConfig := {}
  correlated_gate : TwoQubitCorrelatedPauliConfig := {}
  idle_rate : ℚ := 0
  phase : PhaseNoiseConfig := {}
  amplitude_damping : AmplitudeDampingConfig := {}
  loss_runtime : LossRuntimeConfig := {}
  deriving Repr, DecidableEq

/-- `SimpleNoiseConfig.to_dict`. -/
def SimpleNoiseConfig.to_dict (c : SimpleNoiseConfig) : List (String × PyVal) :=
  [("p_quantum_flip", .float c.p_quantum_flip),
   ("p_loss", .float c.p_loss),
   ("readout", .dict c.readout.to_dict),
   ("gate", .dict c.gate.to_dict),
   ("correlated_gate", .dict c.correlated_gate.to_dict),
   ("idle_rate", .float c.idle_rate),
   ("phase", .dict c.phase.to_dict),
   ("amplitude_damping", .dict c.amplitude_damping.to_dict),
   ("loss_runtime", .dict c.loss_runtime.to_dict)]

/-- `SimpleNoiseConfig.from_mapping`. -/
def SimpleNoiseConfig.from_mapping (m : List (String × PyVal)) :
    Except PyErr SimpleNoiseConfig := do
  let pqf ← toFloat (PyVal.getD m "p_quantum_flip" .none)
  let pl ← toFloat (PyVal.getD m "p_loss" .none)
  let readout ← MeasurementNoiseConfig.from_mapping (subMapping m "readout")
  let gate ← GateNoiseConfig.from_mapping (subMapping m "gate")
  let correlated ← TwoQubitCorrelatedPauliConfig.from_mapping (subMapping m "correlated_gate")
  let ir ← toFloat (PyVal.getD m "idle_rate" .none)
  let phase ← PhaseNoiseConfig.from_mapping (subMapping m "phase")
  let ad ← AmplitudeDampingConfig.from_mapping (subMapping m "amplitude_damping")
  let lr ← LossRuntimeConfig.from_mapping (subMapping m "loss_runtime")
  .ok { p_quantum_flip := pqf, p_loss := pl, readout := readout, gate := gate,
        correlated_gate := correlated, idle_rate := ir, phase := phase,
        amplitude_damping := ad, loss_runtime := lr }

/-!
### `job.py` hardware records and `JobRequest`  (claim C4)
-/

/-- `job.py::ConnectivityKind`. -/
inductive ConnectivityKind where
  | AllToAll
  | NearestNeighborChain
  | NearestNeighborGrid
  deriving Repr, DecidableEq

/-- The `value` of a `ConnectivityKind` enum member. -/
def ConnectivityKind.value : ConnectivityKind → String
  | .AllToAll => "AllToAll"
  | .NearestNeighborChain => "NearestNeighborChain"
  | .NearestNeighborGrid => "NearestNeighborGrid"

/-- `ConnectivityKind.from_str`. -/
def ConnectivityKind.from_str (value : String) : Except PyErr ConnectivityKind :=
  if value = "AllToAll" then .ok .AllToAll
  else if value = "NearestNeighborChain" then .ok .NearestNeighborChain
  else if value = "NearestNeighborGrid" then .ok .NearestNeighborGrid
  else .error (.valueError ("Unknown connectivity kind: " ++ value))

/-- `job.py::SiteDescriptor`. -/
structure SiteDescriptor where
  id : ℤ := 0
  x : ℚ := 0
  y : ℚ := 0
  zone_id : ℤ := 0
  deriving Repr, DecidableEq

/-- `SiteDescriptor.to_dict`. -/
def SiteDescriptor.to_dict (s : SiteDescriptor) : List (String × PyVal) :=
  [("id", .int s.id), ("x", .float s.x), ("y", .float s.y), ("zone_id", .int s.zone_id)]

/-- `job.py::NativeGate`. -/
structure NativeGate where
  name : String
  arity : ℤ := 1
  duration_ns : ℚ := 0
  angle_min : ℚ := 0
  angle_max : ℚ := 0
  connectivity : ConnectivityKind := .AllToAll
  deriving Repr, DecidableEq

/-- `NativeGate.to_dict`. -/
def NativeGate.to_dict (g : NativeGate) : List (String × PyVal) :=
  [("name", .str g.name), ("arity", .int g.arity),
   ("duration_ns", .float g.duration_ns), ("angle_min", .float g.angle_min),
   ("angle_max", .float g.angle_max), ("connectivity", .str g.connectivity.value)]

/-- `job.py::TimingLimits`. -/
structure TimingLimits where
  min_wait_ns : ℚ := 0
  max_wait_ns : ℚ := 0
  max_parallel_single_qubit : ℤ := 0
  max_parallel_two_qubit : ℤ := 0
  max_parallel_per_zone : ℤ := 0
  measurement_cooldown_ns : ℚ := 0
  measurement_duration_ns : ℚ := 0
  deriving Repr, DecidableEq

/-- `TimingLimits.to_dict`. -/
def TimingLimits.to_dict (t : TimingLimits) : List (String × PyVal) :=
  [("min_wait_ns", .float t.min_wait_ns),
   ("max_wait_ns", .float t.max_wait_ns),
   ("max_parallel_single_qubit", .int t.max_parallel_single_qubit),
   ("max_parallel_two_qubit", .int t.max_parallel_two_qubit),
   ("max_parallel_per_zone", .int t.max_parallel_per_zone),
   ("measurement_cooldown_ns", .float t.measurement_cooldown_ns),
   ("measurement_duration_ns", .float t.measurement_duration_ns)]

/-- `job.py::PulseLimits`. -/
structure PulseLimits where
  detuning_min : ℚ := 0
  detuning_max : ℚ := 0
  duration_min_ns : ℚ := 0
  duration_max_ns : ℚ := 0
  max_overlapping_pulses : ℤ := 0
  deriving Repr, DecidableEq

/-- `PulseLimits.to_dict`. -/
def PulseLimits.to_dict (p : PulseLimits) : List (String × PyVal) :=
  [("detuning_min", .float p.detuning_min),
   ("detuning_max", .float p.detuning_max),
   ("duration_min_ns", .float p.duration_min_ns),
   ("duration_max_ns", .float p.duration_max_ns),
   ("max_overlapping_pulses", .int p.max_overlapping_pulses)]

/-- `job.py::HardwareConfig`. -/
structure HardwareConfig where
  positions : List ℚ
  blockade_radius : ℚ := 0
  coordinates : Option (List (List ℚ)) := Option.none
  sites : Option (List SiteDescriptor) := Option.none
  native_gates : Option (List NativeGate) := Option.none
  timing_limits : TimingLimits := {}
  pulse_limits : PulseLimits := {}
  deriving Repr, DecidableEq

/-- `HardwareConfig.to_dict`: `coordinates` is emitted when it is not `None`,
`sites` and `native_gates` when truthy (not `None` and non-empty),
`timing_limits` and `pulse_limits` always. -/
def HardwareConfig.to_dict (h : HardwareConfig) : List (String × PyVal) :=
  [("positions", .list (h.positions.map PyVal.float)),
   ("blockade_radius", .float h.blockade_radius)]
  ++ (match h.coordinates with
      | some coords => [("coordinates", .list (coords.map fun c => .list (c.map PyVal.float)))]
      | Option.none => [])
  ++ (match h.sites with
      | some sites => if sites.isEmpty then [] else
          [("sites", .list (sites.map fun s => .dict s.to_dict))]
      | Option.none => [])
  ++ (match h.native_gates with
      | some gates => if gates.isEmpty then [] else
          [("native_gates", .list (gates.map fun g => .dict g.to_dict))]
      | Option.none => [])
  ++ [("timing_limits", .dict h.timing_limits.to_dict),
      ("pulse_limits", .dict h.pulse_limits.to_dict)]

/-- `job.py::JobRequest`. -/
structure JobRequest where
  program : List PyVal
  hardware : HardwareConfig
  device_id : String := "local-cpu"
  profile : Option String := Option.none
  shots : ℤ := 1
  max_threads : Option ℤ := Option.none
  job_id : String := "python-client"
  metadata : List (String × String) := []
  noise : Option SimpleNoiseConfig := Option.none
  stim_circuit : Option String := Option.none

/-- `JobRequest.to_dict`: the first six keys are always present;
`max_threads` is added when not `None`, `metadata` when non-empty (Python
truthiness of a dict), `noise` when not `None` (a dataclass instance is
always truthy), and `stim_circuit` when it is a non-empty string. -/
def JobRequest.to_dict (r : JobRequest) : List (String × PyVal) :=
  [("job_id", .str r.job_id),
   ("device_id", .str r.device_id),
   ("profile", match r.profile with | some p => .str p | Option.none => .none),
   ("program", .list r.program),
   ("hardware", .dict r.hardware.to_dict),
   ("shots", .int r.shots)]
  ++ (match r.max_threads with
      | some t => [("max_threads", .int t)]
      | Option.none => [])
  ++ (if r.metadata.isEmpty then [] else
      [("metadata", .dict (r.metadata.map fun kv => (kv.1, .str kv.2)))])
  ++ (match r.noise with
      | some n => [("noise", .dict n.to_dict)]
      | Option.none => [])
  ++ (match r.stim_circuit with
      | some s => if s = "" then [] else [("stim_circuit", .str s)]
      | Option.none => [])

/-!
### Python coercion helpers used by `device.py` and `layouts.py`
-/

/-- Truncation toward zero, the behaviour of Python's `int(float)`. -/
def pyTrunc (q : ℚ) : ℤ :=
  if 0 ≤ q then q.floor else -((-q).floor)

/-- Python's `int(v)` builtin on the modelled universe.  As with `pyFloat`,
parsing of numeric strings is not modelled: `int` on a string is mapped to
the `ValueError` Python raises for non-numeric strings, and no theorem below
depends on converting a string. -/
def pyInt : PyVal → Except PyErr ℤ
  | .bool b => .ok (if b then 1 else 0)
  | .int n => .ok n
  | .float q => .ok (pyTrunc q)
  | .str _ => .error (.valueError "invalid literal for int()")
  | _ => .error (.typeError "int() argument must be a string or a number")

/-- `int(raw)` under `except (TypeError, ValueError): continue`, as used on
gate targets by `device.py::_validate_blockade_constraints`: values that do
not coerce are skipped.  String-to-int parsing is not modelled (a string
target is skipped); the claims about gate targets quantify over programs
whose targets are `None`s, numbers or nested containers. -/
def intCoerce? : PyVal → Option ℤ
  | .int n => some n
  | .bool b => some (if b then 1 else 0)
  | .float q => some (pyTrunc q)
  | _ => Option.none

/-- Python iteration `for x in v`: lists yield elements, strings characters,
dicts their keys; numbers and `None` raise `TypeError`. -/
def pyIter : PyVal → Except PyErr (List PyVal)
  | .list xs => .ok xs
  | .str s => .ok (s.toList.map fun c => .str (String.mk [c]))
  | .dict es => .ok (es.map fun kv => .str kv.1)
  | _ => .error (.typeError "object is not iterable")

/-!
### `layouts.py`  (used by claim C8)
-/

/-- `layouts.py::GridLayout`. -/
structure GridLayout where
  dim : ℤ
  rows : ℤ
  cols : ℤ
  layers : ℤ := 1
  spacing : ℚ × ℚ × ℚ := (1, 1, 1)
  deriving Repr, DecidableEq

/-- `GridLayout.from_info`.  `int()`/`float()` conversions of malformed
fields surface as errors. -/
def GridLayout.from_info (info : Option (List (String × PyVal))) :
    Except PyErr (Option GridLayout) :=
  match info with
  | Option.none => .ok Option.none
  | some es =>
    if es.isEmpty then .ok Option.none
    else do
      let dim0 ← pyInt (PyVal.getD es "dim" (.int 1))
      let rows0 ← pyInt (PyVal.getD es "rows" (.int 1))
      let cols0 ← pyInt (PyVal.getD es "cols" (.int 1))
      let layers0 ← pyInt (PyVal.getD es "layers" (.int 1))
      let dim := if dim0 < 1 then 1 else dim0
      let rows := if dim = 1 then 1 else max 1 rows0
      let cols := max 1 cols0
      let layers := if dim = 1 ∨ dim = 2 then 1 else max 1 layers0
      let spacingVal := PyVal.getD es "spacing" .none
      let spacingEs ←
        if ¬ spacingVal.truthy then pure ([] : List (String × PyVal))
        else match spacingVal with
          | .dict e => pure e
          | _ => Except.error (.typeError "spacing payload has no attribute get")
      let x ← pyFloat (PyVal.getD spacingEs "x" (.float 1))
      let y ← pyFloat (PyVal.getD spacingEs "y" (.float (if 2 ≤ dim then x else 1)))
      let z ← pyFloat (PyVal.getD spacingEs "z" (.float (if dim = 3 then y else 1)))
      .ok (some { dim := dim, rows := rows, cols := cols, layers := layers, spacing := (x, y, z) })

/-- `layouts.py::_GRID_LAYOUTS`: profiles with conceptual grids. -/
def gridLayoutsTable : List (String × GridLayout) :=
  [("runtime", { dim := 1, rows := 1, cols := 2 }),
   ("ideal_small_array", { dim := 1, rows := 1, cols := 10 }),
   ("noisy_square_array", { dim := 2, rows := 4, cols := 4 }),
   ("lossy_chain", { dim := 1, rows := 1, cols := 6, spacing := (3/2, 1, 1) }),
   ("lossy_block", { dim := 3, rows := 2, cols := 4, layers := 2, spacing := (3/2, 1, 1) }),
   ("benchmark_chain", { dim := 1, rows := 1, cols := 20, spacing := (13/10, 1, 1) }),
   ("readout_stress", { dim := 1, rows := 1, cols := 8 })]

/-- `layouts.py::grid_layout_for_profile`. -/
def grid_layout_for_profile : Option String → Option GridLayout
  | Option.none => Option.none
  | some p => gridLayoutsTable.lookup p

/-!
### `device.py::Device` and blockade validation  (claims C1, C8)
-/

/-- `device.py::Device` (a dataclass).  Fields are modelled at their
annotated types (`positions : Sequence[float]`, etc.); the `submit_job_fn`
callback is not part of the value model. -/
structure Device where
  id : String
  profile : Option String
  positions : List ℚ
  coordinates : Option (List (List ℚ)) := Option.none
  blockade_radius : ℚ := 0
  noise : Option SimpleNoiseConfig := Option.none
  grid_layout : Option GridLayout := Option.none
  native_gates : Option (List NativeGate) := Option.none
  timing_limits : Option TimingLimits := Option.none
  deriving Repr

/-- All ordered pairs `(l[i], l[j])` with `i < j`, in the order of the
nested loops `for i in range(len(l)): for j in range(i+1, len(l))`. -/
def allPairs {α : Type} : List α → List (α × α)
  | [] => []
  | x :: xs => (xs.map fun y => (x, y)) ++ allPairs xs

/-- `device.py::_distance_between`, phrased as the comparison
`distance > threshold` that its caller performs.  The source computes the
Euclidean distance `sqrt (Σ (v0[d] − v1[d])²)` over the common coordinate
dimensions and compares it with the threshold; for the nonnegative threshold
used by the caller this is equivalent to comparing the squared distance with
the squared threshold, which is the form used here so that the model stays
in exact rational arithmetic.  When either qubit has no usable coordinates
the absolute difference of the 1D positions is compared directly. -/
def distExceeds (positions : List ℚ) (coords : Option (List (List ℚ)))
    (idx0 idx1 : ℕ) (threshold : ℚ) : Bool :=
  let fallback := decide (threshold < |positions.getD idx0 0 - positions.getD idx1 0|)
  match coords with
  | some cl =>
    if idx0 < cl.length ∧ idx1 < cl.length then
      let vec0 := cl.getD idx0 []
      let vec1 := cl.getD idx1 []
      let dim := min vec0.length vec1.length
      if dim ≠ 0 then
        decide (threshold ^ 2 < ∑ d ∈ Finset.range dim, (vec0.getD d 0 - vec1.getD d 0) ^ 2)
      else fallback
    else fallback
  | Option.none => fallback

/-- The coerced index list of one instruction: `instruction.get("targets")
or []`, iterated, with `int(raw)` coercion failures skipped. -/
def applyGateIndices (instr : List (String × PyVal)) : Except PyErr (List ℤ) := do
  let targetsVal := PyVal.getD instr "targets" .none
  let targets := if targetsVal.truthy then targetsVal else .list []
  let raws ← pyIter targets
  .ok (raws.filterMap intCoerce?)

/-- The body of the `for instruction in program` loop of
`_validate_blockade_constraints`: skip non-`ApplyGate` instructions and
instructions naming fewer than two coercible targets, reject out-of-range
indices, then reject the first pair whose separation exceeds the threshold.
Error messages are abridged. -/
def validateInstr (positions : List ℚ) (coords : Option (List (List ℚ)))
    (threshold : ℚ) (instr : List (String × PyVal)) : Except PyErr Unit :=
  if ¬ (PyVal.getD instr "op" .none).isStr "ApplyGate" then .ok ()
  else do
    let indices ← applyGateIndices instr
    if indices.length < 2 then .ok ()
    else
      match indices.find? (fun idx => decide (idx < 0 ∨ (positions.length : ℤ) ≤ idx)) with
      | some idx =>
        .error (.valueError ("Gate references qubit " ++ toString idx ++ ", but device has positions 0.." ++ toString (positions.length - 1)))
      | Option.none =>
        match (allPairs indices).find?
            (fun p => distExceeds positions coords p.1.toNat p.2.toNat threshold) with
        | some p =>
          .error (.valueError ("Gate on qubits " ++ toString p.1 ++ "/" ++ toString p.2 ++ " violates blockade radius"))
        | Option.none => .ok ()

/-- The instruction loop of `_validate_blockade_constraints`, raising at the
first offending instruction. -/
def validateLoop (positions : List ℚ) (coords : Option (List (List ℚ)))
    (threshold : ℚ) : List (List (String × PyVal)) → Except PyErr Unit
  | [] => .ok ()
  | instr :: rest => do
      validateInstr positions coords threshold instr
      validateLoop positions coords threshold rest

/-- The `if coordinates: coord_list = […]` preamble of
`_validate_blockade_constraints`: an empty (falsy) coordinate list behaves
like `None`. -/
def coordFilter : Option (List (List ℚ)) → Option (List (List ℚ))
  | some cs => if cs.isEmpty then Option.none else some cs
  | Option.none => Option.none

/-- `device.py::_validate_blockade_constraints`.  `1e-12` is modelled as the
exact rational `10⁻¹²`. -/
def _validate_blockade_constraints (program : List (List (String × PyVal)))
    (positions : List ℚ) (blockade_radius : ℚ)
    (coordinates : Option (List (List ℚ)) := Option.none) : Except PyErr Unit :=
  if positions.isEmpty ∨ blockade_radius ≤ 0 then .ok ()
  else
    validateLoop positions (coordFilter coordinates)
      (blockade_radius + 1 / 1000000000000) program

/-- `Device.build_job_request` for an already-lowered program: validate the
blockade constraints, then assemble the `JobRequest` (kernel lowering, the
callable branch of `_normalize_program`, is modelled separately by the
`qalloc` lowering of claim C7). -/
def Device.build_job_request (d : Device) (program : List (List (String × PyVal)))
    (shots : ℤ := 1) (max_threads : Option ℤ := Option.none) : Except PyErr JobRequest := do
  _validate_blockade_constraints program d.positions d.blockade_radius d.coordinates
  .ok { program := program.map PyVal.dict,
        hardware := { positions := d.positions,
                      coordinates := d.coordinates,
                      blockade_radius := d.blockade_radius,
                      native_gates := d.native_gates,
                      timing_limits := d.timing_limits.getD {} },
        device_id := d.id,
        profile := d.profile,
        shots := shots,
        max_threads := max_threads,
        noise := d.noise }

/-!
### `qec.py::compute_repetition_code_metrics`  (claim C3)
-/

/-- A measurement record of a `JobResult` as read by
`compute_repetition_code_metrics`: the record's `targets` and `bits`
entries.  The VM emits these as integer lists (`bits` uses `-1` as the
lost-qubit sentinel); non-mapping records, which the source skips, are
outside this record universe. -/
structure MeasurementRecord where
  targets : List ℤ
  bits : List ℤ
  deriving Repr, DecidableEq

/-- The per-record body of the `for record in data_records` loop: records
whose `bits` length differs from the distance are skipped; otherwise the
majority vote (ties to 0, `-1` when a bit is outside `{0,1}`) is compared
with the logical state. -/
def recordIsError (distance : ℕ) (logical_state : ℤ) (r : MeasurementRecord) : Bool :=
  if r.bits.length ≠ distance then false
  else
    let ones := (r.bits.filter fun b => b = 1).length
    let zeros := (r.bits.filter fun b => b = 0).length
    let majority0 : ℤ := if ones ≤ zeros then 0 else 1
    let majority : ℤ := if r.bits.any (fun b => ¬ (b = 0 ∨ b = 1)) then -1 else majority0
    majority = -1 ∨ majority ≠ logical_state

/-- The metrics dictionary returned by `compute_repetition_code_metrics`.
`rounds` is `float(rounds)` when given and `float("nan")` otherwise; NaN is
not a rational, so the field is kept optional. -/
structure RepetitionMetrics where
  logical_x_error_rate : ℚ
  shots : ℕ
  distance : ℚ
  rounds : Option ℚ
  deriving Repr, DecidableEq

/-- The `data_records` selection of `compute_repetition_code_metrics`: the
measurement records whose `targets` tuple equals `(0, …, distance−1)`. -/
def dataRecordsFor (measurements : List MeasurementRecord) (distance : ℕ) :
    List MeasurementRecord :=
  measurements.filter fun r => r.targets = (List.range distance).map fun i => (i : ℤ)

/-- `qec.py::compute_repetition_code_metrics` on the record universe above:
keep the records whose `targets` equal `(0, …, distance−1)`, fail when there
are none, and report the fraction of them counted as logical errors. -/
def compute_repetition_code_metrics (measurements : List MeasurementRecord)
    (distance : ℕ) (logical_state : ℤ := 0) (rounds : Option ℚ := Option.none) :
    Except PyErr RepetitionMetrics :=
  let data_records := dataRecordsFor measurements distance
  if data_records.isEmpty then
    .error (.valueError "No measurement records matching the repetition code distance were found")
  else
    let shots := data_records.length
    let logical_errors := (data_records.filter (recordIsError distance logical_state)).length
    .ok { logical_x_error_rate := (logical_errors : ℚ) / (shots : ℚ),
          shots := shots,
          distance := (distance : ℚ),
          rounds := rounds }

/-- The claim's description of a logical error, stated independently of the
source: the record's bits list has length `distance` and either contains a
value outside `{0,1}` or its majority vote (ties resolved to `0`) differs
from the logical state. -/
def claimLogicalError (distance : ℕ) (logical_state : ℤ) (r : MeasurementRecord) : Prop :=
  r.bits.length = distance ∧
    ((∃ b ∈ r.bits, ¬ (b = 0 ∨ b = 1)) ∨
      (if (r.bits.filter fun b => b = 1).length ≤ (r.bits.filter fun b => b = 0).length
       then (0 : ℤ) else 1) ≠ logical_state)

instance (distance : ℕ) (logical_state : ℤ) (r : MeasurementRecord) :
    Decidable (claimLogicalError distance logical_state r) := by
  unfold claimLogicalError; infer_instance

/-!
### `squin_lowering.py` qalloc lowering  (claim C7)
-/

/-- The instruction emitted for `qalloc(n)` by the `callee == "qalloc"` arm
of `_lower_stmt`. -/
def qallocInstr (n : ℤ) : List (String × PyVal) :=
  [("op", .str "AllocArray"), ("n_qubits", .int n)]

/-- `list(range(a, b))` over the integers. -/
def intRange (a b : ℤ) : List ℤ :=
  (List.range (b - a).toNat).map fun (i : ℕ) => a + (i : ℤ)

/-- The `qalloc` arm of `squin_lowering.py::_lower_stmt` folded over the
sequence of `qalloc` arguments in kernel execution order, starting from a
given `total_qubits`: each call appends `{"op": "AllocArray", "n_qubits": n}`
to the program, binds `list(range(total_qubits, total_qubits + n))` as the
call's result, and advances `total_qubits` by `n`.  No other statement kind
of the lowering modifies `total_qubits` or the bound index ranges, so this
captures exactly what `to_vm_program` does for `qalloc`. -/
def lowerQallocs : ℤ → List ℤ → List (List (String × PyVal)) × List (List ℤ)
  | _, [] => ([], [])
  | total, n :: rest =>
      let tail := lowerQallocs (total + n) rest
      (qallocInstr n :: tail.1, intRange total (total + n) :: tail.2)

/-- `to_vm_program` restricted to its `qalloc` effects: the emitted
`AllocArray` instructions and the index ranges bound to each call, with
`total_qubits` starting at `0`. -/
def to_vm_program_qallocs (ns : List ℤ) : List (List (String × PyVal)) × List (List ℤ) :=
  lowerQallocs 0 ns

/-!
### Module namespaces of `job.py` and `__init__.py`  (claims C2, C5)
-/

/-- The names bound at the top level of `job.py`, in source order: the
`__future__` import, the typing/stdlib imports, the two intra-package
imports, and every module-level definition.  Neither `MoveLimits` nor
`TransportEdge` nor `RemoteServiceError` is among them. -/
def jobModuleNames : List String :=
  ["annotations", "dataclass", "field", "Any", "Dict", "Mapping", "MutableMapping",
   "Optional", "Sequence", "Tuple", "Enum", "glob", "importlib", "os", "sys",
   "render_job_result_html", "grid_layout_for_profile", "Program", "_to_float",
   "_normalize_mapping", "_native_module", "_load_native_module",
   "has_oneapi_backend", "has_stabilizer_backend", "_prepare_job_dict",
   "MeasurementNoiseConfig", "SingleQubitPauliConfig", "GateNoiseConfig",
   "TwoQubitCorrelatedPauliConfig", "LossRuntimeConfig", "PhaseNoiseConfig",
   "AmplitudeDampingConfig", "SimpleNoiseConfig", "ConnectivityKind",
   "SiteDescriptor", "NativeGate", "TimingLimits", "PulseLimits",
   "HardwareConfig", "JobRequest", "JobResult", "_normalize_job_mapping",
   "submit_job", "submit_job_async", "job_status", "job_result"]

/-- The relevant members of Python's builtins namespace (abridged to common
builtins and exception classes).  `RemoteServiceError` is a library class
defined only in `service_client.py`; it is not a builtin. -/
def pythonBuiltins : List String :=
  ["BaseException", "Exception", "ArithmeticError", "AttributeError",
   "ImportError", "ModuleNotFoundError", "IndexError", "KeyError", "NameError",
   "NotImplementedError", "OSError", "OverflowError", "RuntimeError",
   "StopIteration", "SystemExit", "TypeError", "ValueError",
   "ZeroDivisionError", "bool", "int", "float", "str", "list", "dict", "tuple",
   "set", "frozenset", "bytes", "len", "range", "print", "isinstance",
   "issubclass", "getattr", "hasattr", "setattr", "callable", "iter", "next",
   "sorted", "sum", "min", "max", "abs", "map", "filter", "zip", "enumerate",
   "open", "repr", "format", "id", "type", "object", "super", "property",
   "classmethod", "staticmethod", "globals", "locals", "vars", "True", "False",
   "None"]

/-- `from M import n₁, …, nₖ`: the names are bound one at a time in order,
and the first name missing from the module namespace raises `ImportError`. -/
def fromImport (moduleNames : List String) (requested : List String) : Except PyErr Unit :=
  match requested.find? (fun n => ¬ moduleNames.contains n) with
  | some missing => .error (.importError missing)
  | Option.none => .ok ()

/-- The names requested by the `from .job import (…)` block of
`__init__.py` (lines 12–29), in source order. -/
def initJobImportNames : List String :=
  ["ConnectivityKind", "HardwareConfig", "JobRequest", "MoveLimits",
   "NativeGate", "PulseLimits", "SimpleNoiseConfig", "SiteDescriptor",
   "TimingLimits", "TransportEdge", "submit_job", "submit_job_async",
   "job_result", "job_status", "JobResult", "has_stabilizer_backend"]

/-- Executing `__init__.py` of `neutral_atom_vm` up to and including its
`from .job import (…)` block.  `earlier` stands for the outcome of the
preceding `from .device import (…)` block (which transitively loads the
native extension and `service_client`); when it succeeds, execution reaches
the `.job` import block, and the later imports (`.qec`, `.squin_lowering`,
`.cli`, `.widgets`) run only if that block succeeds. -/
def importNeutralAtomVM (earlier : Except PyErr Unit) : Except PyErr Unit := do
  earlier
  fromImport jobModuleNames initJobImportNames

/-- Evaluating `raise N(msg)` inside a function of `job.py`: the name `N` is
first resolved in the module's globals and the builtins; when it resolves,
the intended exception is raised, and otherwise the lookup itself raises
`NameError`. -/
def raiseByName (n : String) (intended : PyErr) : PyErr :=
  if jobModuleNames.contains n ∨ pythonBuiltins.contains n then intended
  else .nameError n

/-- `job.py::submit_job_async`, parameterized by whether the loaded native
module has a `submit_job_async` attribute and by the payload the native call
returns. -/
def submit_job_async (hasAttr : Bool) (nativeResult : PyVal) :
    Except PyErr (List (String × PyVal)) :=
  if ¬ hasAttr then
    .error (raiseByName "RemoteServiceError"
      (.remoteServiceError "Asynchronous submission is unavailable in this build"))
  else
    match nativeResult.mapping? with
    | Option.none =>
      .error (raiseByName "RemoteServiceError"
        (.remoteServiceError "Async submission returned an unexpected payload"))
    | some es => .ok es

/-- `job.py::job_status`, parameterized the same way. -/
def job_status (hasAttr : Bool) (nativeResult : PyVal) :
    Except PyErr (List (String × PyVal)) :=
  if ¬ hasAttr then
    .error (raiseByName "RemoteServiceError"
      (.remoteServiceError "Job status queries are unavailable in this build"))
  else
    match nativeResult.mapping? with
    | Option.none =>
      .error (raiseByName "RemoteServiceError" (.remoteServiceError "Job status response is unexpected"))
    | some es => .ok es

/-- `job.py::job_result`, parameterized the same way. -/
def job_result (hasAttr : Bool) (nativeResult : PyVal) :
    Except PyErr (List (String × PyVal)) :=
  if ¬ hasAttr then
    .error (raiseByName "RemoteServiceError"
      (.remoteServiceError "Job result queries are unavailable in this build"))
  else
    match nativeResult.mapping? with
    | Option.none =>
      .error (raiseByName "RemoteServiceError" (.remoteServiceError "Job result response is unexpected"))
    | some es => .ok es

/-!
### `cli.py::_cmd_run` exit codes  (claim C9)
-/

/-- Truthiness of `args.log_file` (`None` or the empty string disable the
log-file branch). -/
def logFileTruthy : Option String → Bool
  | some s => s ≠ ""
  | Option.none => false

/-- `cli.py::_cmd_run` from the point where the kernel and device are
loaded, with its effectful collaborators abstracted as outcomes:
`build` is `device.build_job_request(…)`, `run` is the submission
(`submit_job_to_service` or `_run_local_job_with_progress`), and
`write_log` is `_write_log_file` on the requested path.  The try/except
structure is transcribed exactly: a `ValueError` from building, a
`ValueError` or `RemoteServiceError` from running, or an `OSError` from
log writing yield exit code 1; any other exception propagates; otherwise
the result is printed and the exit code is 0. -/
def cmdRun {α β : Type} (build : Except PyErr α) (run : α → Except PyErr β)
    (log_file : Option String) (write_log : Except PyErr Unit) : Except PyErr ℤ :=
  match build with
  | .error (.valueError _) => .ok 1
  | .error e => .error e
  | .ok req =>
    match run req with
    | .error (.valueError _) => .ok 1
    | .error (.remoteServiceError _) => .ok 1
    | .error e => .error e
    | .ok _ =>
      if logFileTruthy log_file then
        match write_log with
        | .error (.osError _) => .ok 1
        | .error e => .error e
        | .ok _ => .ok 0
      else .ok 0

/-!
### `device.py::build_device_from_config`  (claim C8)
-/

/-- Python `d[k] = v`: replace the value of an existing key in place, or
append a new binding. -/
def dictSet (es : List (String × PyVal)) (k : String) (v : PyVal) : List (String × PyVal) :=
  if es.any (fun kv => kv.1 = k) then es.map (fun kv => if kv.1 = k then (k, v) else kv)
  else es ++ [(k, v)]

/-- Python `d.pop(k, None)`: drop the binding of the key. -/
def dictPop (es : List (String × PyVal)) (k : String) : List (String × PyVal) :=
  es.filter fun kv => kv.1 ≠ k

/-- Python `str(v)` as used on native-gate fields.  Only string values are
exercised by the modelled configurations; the rendering of non-string
values is abridged (Python float repr is not reproduced). -/
def pyStr : PyVal → String
  | .str s => s
  | .none => "None"
  | .bool b => if b then "True" else "False"
  | .int n => toString n
  | .float q => toString q
  | .list _ => "[...]"
  | .dict _ => "{...}"

/-- `device.py::_sanitize_noise_for_stabilizer`. -/
def _sanitize_noise_for_stabilizer (payload : Option (List (String × PyVal))) :
    Option (List (String × PyVal)) :=
  match payload with
  | Option.none => Option.none
  | some p =>
    let s0 : List (String × PyVal) := []
    let s1 := match PyVal.get p "p_loss" with
      | some v => s0 ++ [("p_loss", v)]
      | Option.none => s0
    let s2 := match PyVal.get p "p_quantum_flip" with
      | some v => s1 ++ [("p_quantum_flip", v)]
      | Option.none => s1
    let s3 := match PyVal.getD p "readout" .none with
      | .dict r => s2 ++ [("readout", .dict r)]
      | _ => s2
    let s4 := match PyVal.getD p "gate" .none with
      | .dict g =>
        let gate_clean := ["single_qubit", "two_qubit_control", "two_qubit_target"].filterMap
          fun f => match PyVal.getD g f .none with
            | .dict e => some (f, PyVal.dict e)
            | _ => Option.none
        if gate_clean.isEmpty then s3 else s3 ++ [("gate", .dict gate_clean)]
      | _ => s3
    if s4.isEmpty then Option.none else some s4

/-- `device.py::_stabilizer_config_from`. -/
def _stabilizer_config_from (config : List (String × PyVal)) : List (String × PyVal) :=
  let noise_payload := PyVal.getD config "noise" .none
  match _sanitize_noise_for_stabilizer noise_payload.mapping? with
  | some clean => dictSet config "noise" (.dict clean)
  | Option.none => dictPop config "noise"

/-- `payload.get(k, default) or default`, the falsy-coalescing read used by
`_parse_timing_limits` and `_parse_native_gates`. -/
def getOrD (payload : List (String × PyVal)) (k : String) (default : PyVal) : PyVal :=
  let v := PyVal.getD payload k default
  if v.truthy then v else default

/-- `device.py::_parse_timing_limits`. -/
def _parse_timing_limits (payload : List (String × PyVal)) : Except PyErr TimingLimits := do
  let minw ← pyFloat (getOrD payload "min_wait_ns" (.float 0))
  let maxw ← pyFloat (getOrD payload "max_wait_ns" (.float 0))
  let mps ← pyInt (getOrD payload "max_parallel_single_qubit" (.int 0))
  let mpt ← pyInt (getOrD payload "max_parallel_two_qubit" (.int 0))
  let mpz ← pyInt (getOrD payload "max_parallel_per_zone" (.int 0))
  let mc ← pyFloat (getOrD payload "measurement_cooldown_ns" (.float 0))
  let md ← pyFloat (getOrD payload "measurement_duration_ns" (.float 0))
  .ok { min_wait_ns := minw, max_wait_ns := maxw,
        max_parallel_single_qubit := mps, max_parallel_two_qubit := mpt,
        max_parallel_per_zone := mpz, measurement_cooldown_ns := mc,
        measurement_duration_ns := md }

/-- `device.py::_parse_native_gates`: entries without a (truthy) name are
skipped, unknown connectivity strings fall back to `AllToAll`. -/
def _parse_native_gates : List (List (String × PyVal)) → Except PyErr (List NativeGate)
  | [] => .ok []
  | entry :: rest => do
      let name := pyStr (PyVal.getD entry "name" (.str ""))
      if name = "" then _parse_native_gates rest
      else do
        let connectivity :=
          match ConnectivityKind.from_str
              (pyStr (PyVal.getD entry "connectivity" (.str ConnectivityKind.AllToAll.value))) with
          | .ok c => c
          | .error _ => ConnectivityKind.AllToAll
        let arity ← pyInt (getOrD entry "arity" (.int 1))
        let dur ← pyFloat (getOrD entry "duration_ns" (.float 0))
        let amin ← pyFloat (getOrD entry "angle_min" (.float 0))
        let amax ← pyFloat (getOrD entry "angle_max" (.float 0))
        let gates ← _parse_native_gates rest
        .ok ({ name := name, arity := arity, duration_ns := dur, angle_min := amin,
               angle_max := amax, connectivity := connectivity } :: gates)

/-- `device.py::build_device_from_config` after remote-catalog resolution:
the `service_url` branch only substitutes the catalog's profile entry for
`config` and installs a submit callback, so the function is modelled on the
resolved configuration directly, with `has_stabilizer` (a property of the
native build) as a parameter.  Site positions are kept at the annotated
numeric type (`Device.positions : Sequence[float]`): the model converts the
raw sequence elements to rationals, restricting the modelled configurations
to numeric positions. -/
def build_device_from_config (device_id : String) (profile : Option String)
    (config : Option (List (String × PyVal))) (has_stabilizer : Bool := false) :
    Except PyErr Device :=
  match config with
  | Option.none => .error (.valueError "Profile config must include 'positions'")
  | some cfg0 =>
    if (PyVal.get cfg0 "positions").isNone then
      .error (.valueError "Profile config must include 'positions'")
    else do
      let cfg ←
        if device_id = "stabilizer" then
          if ¬ has_stabilizer then
            Except.error (.valueError "Stabilizer backend is unavailable in this build")
          else .ok (_stabilizer_config_from cfg0)
        else .ok cfg0
      let coordinatesVal := PyVal.getD cfg "coordinates" .none
      let coord_entries : Option (List (List ℚ)) ←
        match coordinatesVal with
        | .list entries => do
            let kept := entries.filterMap fun e =>
              match e with
              | .list xs => some xs
              | _ => Option.none
            let es ← kept.mapM fun xs => xs.mapM pyFloat
            pure (some es)
        | .str _ => pure (some [])
        | _ => pure Option.none
      let posVal ← match PyVal.get cfg "positions" with
        | some v => pure v
        | Option.none => Except.error (.valueError "KeyError: positions")
      let posRaw ← pyIter posVal
      let positions0 ← posRaw.mapM pyFloat
      let positions := match coord_entries with
        | some ce =>
          if ¬ ce.isEmpty ∧ positions0.length ≠ ce.length then
            (List.range ce.length).map fun i => (i : ℚ)
          else positions0
        | Option.none => positions0
      let blockade ← pyFloat (PyVal.getD cfg "blockade_radius" (.float 0))
      let noise_cfg ← match PyVal.getD cfg "noise" .none with
        | .dict es => do
            let c ← SimpleNoiseConfig.from_mapping es
            pure (some c)
        | _ => pure Option.none
      let timing_limits ← match PyVal.getD cfg "timing_limits" .none with
        | .dict es => do
            let t ← _parse_timing_limits es
            pure (some t)
        | _ => pure Option.none
      let native_gates ← match PyVal.getD cfg "native_gates" .none with
        | .list entriesList =>
            let mappingEntries := entriesList.filterMap PyVal.mapping?
            if mappingEntries.isEmpty then pure Option.none
            else do
              let parsed ← _parse_native_gates mappingEntries
              pure (if parsed.isEmpty then Option.none else some parsed)
        | _ => pure Option.none
      let layout0 ← match PyVal.getD cfg "grid_layout" .none with
        | .dict es => GridLayout.from_info (some es)
        | _ => pure Option.none
      let layout := match layout0 with
        | some l => some l
        | Option.none => grid_layout_for_profile profile
      .ok { id := device_id, profile := profile, positions := positions,
            coordinates := coord_entries, blockade_radius := blockade,
            noise := noise_cfg, grid_layout := layout,
            native_gates := native_gates, timing_limits := timing_limits }

/-!
## Theorems
-/

/-- C2: importing the package `neutral_atom_vm` always raises `ImportError`:
`__init__.py` requests `MoveLimits` and `TransportEdge` from `.job`, but
`job.py` binds neither name, so the `from .job import (…)` block fails at
`MoveLimits` whenever it is reached, and no execution of `__init__.py`
completes successfully. -/
theorem package_import_always_fails :
    (¬ jobModuleNames.contains "MoveLimits" ∧ ¬ jobModuleNames.contains "TransportEdge") ∧
    fromImport jobModuleNames initJobImportNames = .error (.importError "MoveLimits") ∧
    ∀ earlier : Except PyErr Unit, importNeutralAtomVM earlier ≠ .ok () := by
  refine ⟨by decide, rfl, ?_⟩
  intro earlier
  cases earlier with
  | error e => simp [importNeutralAtomVM, Bind.bind, Except.bind]
  | ok u =>
    cases u
    have h : fromImport jobModuleNames initJobImportNames =
        .error (.importError "MoveLimits") := rfl
    simp [importNeutralAtomVM, Bind.bind, Except.bind, h]

/-- C5: in `job.py`, the error branches of `submit_job_async`, `job_status`
and `job_result` raise `NameError` rather than the intended
`RemoteServiceError`, because the name `RemoteServiceError` is neither bound
in `job.py`'s module namespace nor a builtin. -/
theorem job_error_branches_raise_nameerror :
    (∀ r : PyVal, submit_job_async false r = .error (.nameError "RemoteServiceError")) ∧
    (∀ r : PyVal, r.mapping? = Option.none →
      submit_job_async true r = .error (.nameError "RemoteServiceError")) ∧
    (∀ r : PyVal, job_status false r = .error (.nameError "RemoteServiceError")) ∧
    (∀ r : PyVal, r.mapping? = Option.none →
      job_status true r = .error (.nameError "RemoteServiceError")) ∧
    (∀ r : PyVal, job_result false r = .error (.nameError "RemoteServiceError")) ∧
    (∀ r : PyVal, r.mapping? = Option.none →
      job_result true r = .error (.nameError "RemoteServiceError")) := by
  have hname : ∀ intended, raiseByName "RemoteServiceError" intended =
      .nameError "RemoteServiceError" := by
    intro intended
    unfold raiseByName
    rw [if_neg]
    decide
  refine ⟨fun r => ?_, fun r h => ?_, fun r => ?_, fun r h => ?_, fun r => ?_, fun r h => ?_⟩ <;>
    simp [submit_job_async, job_status, job_result, hname, *]

/-- Witness for C5 at a concrete non-mapping payload. -/
theorem job_error_branches_raise_nameerror_witness :
    (PyVal.int 0).mapping? = Option.none ∧
    submit_job_async true (.int 0) = .error (.nameError "RemoteServiceError") :=
  ⟨rfl, job_error_branches_raise_nameerror.2.1 (.int 0) rfl⟩

/-- C9: `_cmd_run` returns exit code 1 when building the job request raises
`ValueError`, when submission/execution raises `ValueError` or
`RemoteServiceError`, or when writing a requested log file fails with
`OSError`; it returns exit code 0 when the job runs and any requested log
write succeeds. -/
theorem cmd_run_exit_codes {α β : Type} (build : Except PyErr α)
    (run : α → Except PyErr β) (lf : Option String) (wl : Except PyErr Unit) :
    (∀ m, build = .error (.valueError m) → cmdRun build run lf wl = .ok 1) ∧
    (∀ a m, build = .ok a → run a = .error (.valueError m) → cmdRun build run lf wl = .ok 1) ∧
    (∀ a m, build = .ok a → run a = .error (.remoteServiceError m) →
      cmdRun build run lf wl = .ok 1) ∧
    (∀ a b s m, build = .ok a → run a = .ok b → lf = some s → s ≠ "" →
      wl = .error (.osError m) → cmdRun build run lf wl = .ok 1) ∧
    (∀ a b, build = .ok a → run a = .ok b → (logFileTruthy lf = true → wl = .ok ()) →
      cmdRun build run lf wl = .ok 0) := by
  refine ⟨?_, ?_, ?_, ?_, ?_⟩
  · intro m hb; subst hb; rfl
  · intro a m hb hr; subst hb; simp [cmdRun, hr]
  · intro a m hb hr; subst hb; simp [cmdRun, hr]
  · intro a b s m hb hr hlf hs hw
    subst hb; subst hlf; subst hw
    simp [cmdRun, hr, logFileTruthy, hs]
  · intro a b hb hr hw
    subst hb
    by_cases hl : logFileTruthy lf = true
    · have := hw hl
      simp [cmdRun, hr, hl, this]
    · simp [cmdRun, hr, hl]

/-- Witness for C9: a `ValueError` while building yields exit code 1, and a
clean run with no log file requested yields exit code 0. -/
theorem cmd_run_exit_codes_witness :
    cmdRun (α := Unit) (β := Unit) (.error (.valueError "invalid program"))
      (fun _ => .ok ()) Option.none (.ok ()) = .ok 1 ∧
    cmdRun (α := Unit) (β := Unit) (.ok ()) (fun _ => .ok ()) Option.none (.ok ()) = .ok 0 :=
  ⟨(cmd_run_exit_codes _ _ _ _).1 "invalid program" rfl,
   (cmd_run_exit_codes _ _ _ _).2.2.2.2 () () rfl rfl (fun h => by cases h)⟩

/-!
### Lemmas about the qalloc lowering  (claim C7)
-/

theorem mem_intRange {a b x : ℤ} : x ∈ intRange a b ↔ a ≤ x ∧ x < b := by
  simp only [intRange, List.mem_map, List.mem_range]
  constructor
  · rintro ⟨i, hi, rfl⟩
    constructor <;> omega
  · rintro ⟨h1, h2⟩
    exact ⟨(x - a).toNat, by omega, by omega⟩

theorem lowerQallocs_fst (t : ℤ) (ns : List ℤ) :
    (lowerQallocs t ns).1 = ns.map qallocInstr := by
  induction ns generalizing t with
  | nil => rfl
  | cons n rest ih => simp [lowerQallocs, ih]

theorem lowerQallocs_snd_length (t : ℤ) (ns : List ℤ) :
    (lowerQallocs t ns).2.length = ns.length := by
  induction ns generalizing t with
  | nil => rfl
  | cons n rest ih => simp [lowerQallocs, ih]

theorem lowerQallocs_snd_getD (t : ℤ) (ns : List ℤ) (i : ℕ) (hi : i < ns.length) :
    (lowerQallocs t ns).2.getD i [] =
      intRange (t + (ns.take i).sum) (t + (ns.take i).sum + ns.getD i 0) := by
  induction ns generalizing t i with
  | nil => simp at hi
  | cons n rest ih =>
    cases i with
    | zero => simp [lowerQallocs]
    | succ k =>
      have hk : k < rest.length := by simpa using hi
      have := ih (t + n) k hk
      simp only [lowerQallocs, List.getD_cons_succ, List.take_succ_cons, List.sum_cons,
        List.getD_cons_succ] at this ⊢
      rw [this]
      congr 1 <;> ring

theorem sum_take_mono (ns : List ℤ) (h0 : ∀ n ∈ ns, 0 ≤ n) {i j : ℕ} (hij : i ≤ j) :
    (ns.take i).sum ≤ (ns.take j).sum := by
  obtain ⟨k, rfl⟩ := Nat.exists_eq_add_of_le hij
  rw [List.take_add, List.sum_append]
  have : 0 ≤ ((ns.drop i).take k).sum := by
    apply List.sum_nonneg
    intro x hx
    exact h0 x (List.drop_subset i ns (List.take_subset k _ hx))
  omega

theorem take_succ_sum (ns : List ℤ) (i : ℕ) (hi : i < ns.length) :
    (ns.take (i + 1)).sum = (ns.take i).sum + ns.getD i 0 := by
  rw [List.take_succ, List.sum_append]
  rw [List.getD_eq_getElem ns 0 hi, List.getElem?_eq_getElem hi]
  simp

/-- C7 (amended): for a kernel whose `qalloc` arguments are all at least 1
(the spec's `AllocArray` precondition `n_qubits ≥ 1`), every `qalloc(n)`
call emits `{"op": "AllocArray", "n_qubits": n}`, binds the consecutive
index range `[t, t+n)` where `t` is the sum of the earlier calls' sizes
(their total allocation), and any two distinct calls receive disjoint,
strictly increasing ranges. -/
theorem qalloc_lowering_ranges (ns : List ℤ) (h : ∀ n ∈ ns, 1 ≤ n) :
    (to_vm_program_qallocs ns).1 = ns.map qallocInstr ∧
    (to_vm_program_qallocs ns).2.length = ns.length ∧
    (∀ i, i < ns.length →
      (to_vm_program_qallocs ns).2.getD i [] =
        intRange ((ns.take i).sum) ((ns.take i).sum + ns.getD i 0)) ∧
    (∀ i j, i < ns.length → j < ns.length → i < j →
      ∀ a ∈ (to_vm_program_qallocs ns).2.getD i [],
        ∀ b ∈ (to_vm_program_qallocs ns).2.getD j [], a < b) := by
  have h0 : ∀ n ∈ ns, 0 ≤ n := fun n hn => le_trans (by norm_num) (h n hn)
  refine ⟨lowerQallocs_fst 0 ns, lowerQallocs_snd_length 0 ns, ?_, ?_⟩
  · intro i hi
    have := lowerQallocs_snd_getD 0 ns i hi
    simpa using this
  · intro i j hi hj hij a ha b hb
    simp only [to_vm_program_qallocs] at ha hb
    rw [lowerQallocs_snd_getD 0 ns i hi] at ha
    rw [lowerQallocs_snd_getD 0 ns j hj] at hb
    simp only [zero_add] at ha hb
    rw [mem_intRange] at ha hb
    have hstep : (ns.take (i + 1)).sum = (ns.take i).sum + ns.getD i 0 :=
      take_succ_sum ns i hi
    have hmono : (ns.take (i + 1)).sum ≤ (ns.take j).sum :=
      sum_take_mono ns h0 hij
    omega

/-- C7 counterexample: as stated over all `qalloc` arguments the claim
fails.  With the call sequence `qalloc(2); qalloc(-2); qalloc(2)` the first
and third calls are both bound to the range `[0, 2)` — the ranges of
distinct calls are neither disjoint nor strictly increasing, and the third
call's start 0 is not the total allocated by the earlier calls. -/
theorem qalloc_lowering_counterexample :
    (0 : ℤ) ∈ (to_vm_program_qallocs [2, -2, 2]).2.getD 0 [] ∧
    (0 : ℤ) ∈ (to_vm_program_qallocs [2, -2, 2]).2.getD 2 [] ∧
    (to_vm_program_qallocs [2, -2, 2]).2.getD 0 [] =
      (to_vm_program_qallocs [2, -2, 2]).2.getD 2 [] := by
  decide

/-- Witness for C7 at the concrete call sequence `qalloc(1); qalloc(2)`:
the bound ranges are `[0]` and `[1, 2]`. -/
theorem qalloc_lowering_ranges_witness :
    (to_vm_program_qallocs [1, 2]).1 = [1, 2].map qallocInstr ∧
    (to_vm_program_qallocs [1, 2]).2.getD 0 [] = [0] ∧
    (to_vm_program_qallocs [1, 2]).2.getD 1 [] = [1, 2] ∧
    ∀ a ∈ (to_vm_program_qallocs [1, 2]).2.getD 0 [],
      ∀ b ∈ (to_vm_program_qallocs [1, 2]).2.getD 1 [], a < b :=
  ⟨(qalloc_lowering_ranges [1, 2] (by decide)).1, by decide, by decide,
   (qalloc_lowering_ranges [1, 2] (by decide)).2.2.2 0 1 (by decide) (by decide) (by decide)⟩

/-!
### Theorems about `JobRequest.to_dict`  (claim C4)
-/

/-- C4 counterexample: a `JobRequest` with the default (empty) metadata
serializes without a `"metadata"` key, because `to_dict` guards the field
with Python truthiness (`if self.metadata:`), so the claim that the
serialized mapping always contains `metadata` is false. -/
theorem jobrequest_to_dict_no_metadata_key :
    "metadata" ∉
      (JobRequest.to_dict { program := [], hardware := { positions := [] } }).map Prod.fst := by
  decide

/-- C4 (amended): the serialized job mapping always contains `job_id`,
`device_id`, `profile`, `program`, `hardware` and `shots`; it contains
`max_threads` exactly when that field is set, `noise` exactly when that
field is set, `metadata` exactly when the metadata dict is non-empty, and
`stim_circuit` exactly when that field is set to a non-empty string. -/
theorem jobrequest_to_dict_keys (r : JobRequest) :
    ("job_id" ∈ (r.to_dict).map Prod.fst ∧ "device_id" ∈ (r.to_dict).map Prod.fst ∧
     "profile" ∈ (r.to_dict).map Prod.fst ∧ "program" ∈ (r.to_dict).map Prod.fst ∧
     "hardware" ∈ (r.to_dict).map Prod.fst ∧ "shots" ∈ (r.to_dict).map Prod.fst) ∧
    ("max_threads" ∈ (r.to_dict).map Prod.fst ↔ r.max_threads ≠ Option.none) ∧
    ("metadata" ∈ (r.to_dict).map Prod.fst ↔ r.metadata ≠ []) ∧
    ("noise" ∈ (r.to_dict).map Prod.fst ↔ r.noise ≠ Option.none) ∧
    ("stim_circuit" ∈ (r.to_dict).map Prod.fst ↔
      ∃ s, r.stim_circuit = some s ∧ s ≠ "") := by
  obtain ⟨prog, hw, did, prof, shots, mt, jid, md, noise, sc⟩ := r
  simp only [JobRequest.to_dict, List.map_append, List.mem_append]
  cases mt <;> cases noise <;>
    rcases sc with _ | ⟨s⟩ <;>
    rcases hmd : md.isEmpty with _ | _ <;>
    simp_all [List.isEmpty_iff]

/-!
### Theorems about `TwoQubitCorrelatedPauliConfig.from_mapping`  (claim C6)
-/

/-- C6 counterexample: `from_mapping` does not return a configuration for
every input mapping — a matrix entry that is itself a list makes the
`_to_float` conversion raise `TypeError` (Python:
`from_mapping({"matrix": [[[], 0, 0, 0]]})` raises), so no 4×4
configuration is produced for this input. -/
theorem correlated_from_mapping_raises :
    TwoQubitCorrelatedPauliConfig.from_mapping
        [("matrix", .list [.list [.list [], .int 0, .int 0, .int 0]])] =
      .error (.typeError "float() argument must be a string or a real number") := by
  rfl

theorem convRow_length {row : PyVal} {l : List ℚ}
    (h : TwoQubitCorrelatedPauliConfig.convRow row = .ok l) : l.length = 4 := by
  unfold TwoQubitCorrelatedPauliConfig.convRow at h
  cases hs : row.seq? with
  | none => rw [hs] at h; cases h; rfl
  | some raw =>
    rw [hs] at h
    have : ∀ (idxs : List ℕ) (out : List ℚ),
        (idxs.mapM fun i =>
          if h : i < raw.length then toFloat (raw.get ⟨i, h⟩) else .ok 0) = .ok out →
        out.length = idxs.length := by
      intro idxs
      induction idxs with
      | nil => intro out hout; cases hout; rfl
      | cons i rest ih =>
        intro out hout
        rw [List.mapM_cons] at hout
        cases hfi : (if h : i < raw.length then toFloat (raw.get ⟨i, h⟩) else .ok 0) with
        | error e => rw [hfi] at hout; cases hout
        | ok q =>
          rw [hfi] at hout
          cases hrest : (rest.mapM fun i =>
              if h : i < raw.length then toFloat (raw.get ⟨i, h⟩) else .ok 0) with
          | error e =>
            rw [hrest] at hout
            cases hout
          | ok qs =>
            rw [hrest] at hout
            cases hout
            simp [ih qs hrest]
    exact this (List.range 4) l h

theorem padRows_length (rows : List (List ℚ)) :
    (TwoQubitCorrelatedPauliConfig.padRows rows).length = 4 := by
  unfold TwoQubitCorrelatedPauliConfig.padRows
  simp [List.length_take]
  omega

theorem padRows_mem {rows : List (List ℚ)} (hrow : ∀ row ∈ rows, row.length = 4) :
    ∀ row ∈ TwoQubitCorrelatedPauliConfig.padRows rows, row.length = 4 := by
  intro row hmem
  unfold TwoQubitCorrelatedPauliConfig.padRows at hmem
  have := List.take_subset 4 _ hmem
  rcases List.mem_append.mp this with h | h
  · exact hrow row h
  · rw [List.eq_of_mem_replicate h]; rfl

/-- C6 (amended): whenever `from_mapping` returns a configuration (it
raises `TypeError`/`ValueError` when a referenced matrix entry is not `None`
or a number), the matrix has exactly four rows of exactly four floats —
missing entries are read as `0.0` and entries beyond the fourth row or
column are discarded — and an absent or non-sequence `matrix` yields the
all-zero 4×4 matrix. -/
theorem correlated_from_mapping_shape (m : List (String × PyVal))
    (c : TwoQubitCorrelatedPauliConfig)
    (h : TwoQubitCorrelatedPauliConfig.from_mapping m = .ok c) :
    c.matrix.length = 4 ∧ (∀ row ∈ c.matrix, row.length = 4) ∧
    (((PyVal.get m "matrix").getD .none).seq? = Option.none → c.matrix = zeroMatrix) := by
  unfold TwoQubitCorrelatedPauliConfig.from_mapping at h
  cases hs : ((PyVal.get m "matrix").getD PyVal.none).seq? with
  | none =>
    rw [hs] at h
    cases h
    exact ⟨rfl, by decide, fun _ => rfl⟩
  | some rows =>
    rw [hs] at h
    have h' : (rows.mapM TwoQubitCorrelatedPauliConfig.convRow >>= fun converted =>
        Except.ok (⟨TwoQubitCorrelatedPauliConfig.padRows converted⟩ :
          TwoQubitCorrelatedPauliConfig)) = Except.ok c := h
    clear h
    cases hconv : rows.mapM TwoQubitCorrelatedPauliConfig.convRow with
    | error e =>
      rw [hconv] at h'
      simp [Bind.bind, Except.bind] at h'
    | ok converted =>
      rw [hconv] at h'
      simp only [Bind.bind, Except.bind, Except.ok.injEq] at h'
      cases h'
      have hrows : ∀ row ∈ converted, row.length = 4 := by
        intro row hmem
        have : ∀ (rs : List PyVal) (out : List (List ℚ)),
            rs.mapM TwoQubitCorrelatedPauliConfig.convRow = .ok out →
            ∀ row ∈ out, row.length = 4 := by
          intro rs
          induction rs with
          | nil => intro out hout row hr; cases hout; simp at hr
          | cons r rest ih =>
            intro out hout row hr
            rw [List.mapM_cons] at hout
            cases hcr : TwoQubitCorrelatedPauliConfig.convRow r with
            | error e => rw [hcr] at hout; cases hout
            | ok q =>
              rw [hcr] at hout
              cases hrest : rest.mapM TwoQubitCorrelatedPauliConfig.convRow with
              | error e => rw [hrest] at hout; cases hout
              | ok qs =>
                rw [hrest] at hout
                cases hout
                rcases List.mem_cons.mp hr with rfl | hmem2
                · exact convRow_length hcr
                · exact ih qs hrest row hmem2
        exact this rows converted hconv row hmem
      refine ⟨padRows_length converted, padRows_mem hrows, fun habs => ?_⟩
      exact Option.noConfusion habs

/-- Witness for C6 at the empty mapping: the result is the all-zero 4×4
matrix. -/
theorem correlated_from_mapping_shape_witness :
    (⟨zeroMatrix⟩ : TwoQubitCorrelatedPauliConfig).matrix.length = 4 ∧
    (∀ row ∈ (⟨zeroMatrix⟩ : TwoQubitCorrelatedPauliConfig).matrix, row.length = 4) ∧
    (((PyVal.get ([] : List (String × PyVal)) "matrix").getD .none).seq? = Option.none →
      (⟨zeroMatrix⟩ : TwoQubitCorrelatedPauliConfig).matrix = zeroMatrix) :=
  correlated_from_mapping_shape [] ⟨zeroMatrix⟩ rfl

/-!
### Theorem about `build_device_from_config`  (claim C8)
-/

/-- C8: after any remote-catalog resolution, a configuration that does not
contain the key `positions` (or a missing configuration) makes
`build_device_from_config` raise
`ValueError("Profile config must include 'positions'")`, so no `Device`
is ever constructed from a profile configuration without site positions. -/
theorem build_device_requires_positions (device_id : String) (profile : Option String)
    (config : Option (List (String × PyVal))) (has_stab : Bool)
    (h : ∀ cfg, config = some cfg → PyVal.get cfg "positions" = Option.none) :
    build_device_from_config device_id profile config has_stab =
      .error (.valueError "Profile config must include 'positions'") := by
  cases config with
  | none => rfl
  | some cfg =>
    have hc := h cfg rfl
    simp [build_device_from_config, hc]

/-- Witness for C8 at a concrete configuration lacking `positions`. -/
theorem build_device_requires_positions_witness :
    build_device_from_config "local-cpu" Option.none
        (some [("blockade_radius", .float 1)]) false =
      .error (.valueError "Profile config must include 'positions'") :=
  build_device_requires_positions "local-cpu" Option.none
    (some [("blockade_radius", .float 1)]) false
    (fun cfg hc => by cases hc; rfl)

/-!
### Theorems about the `SimpleNoiseConfig` round trip  (claim C10)
-/

theorem convRow_float_list : ∀ (row : List ℚ), row.length = 4 →
    TwoQubitCorrelatedPauliConfig.convRow (.list (row.map PyVal.float)) = .ok row
  | [_, _, _, _], _ => rfl
  | [], h => by simp at h
  | [_], h => by simp at h
  | [_, _], h => by simp at h
  | [_, _, _], h => by simp at h
  | _ :: _ :: _ :: _ :: _ :: _, h => by simp at h

theorem padRows_of_length_four {rows : List (List ℚ)} (h : rows.length = 4) :
    TwoQubitCorrelatedPauliConfig.padRows rows = rows := by
  unfold TwoQubitCorrelatedPauliConfig.padRows
  rw [h]
  simp
  omega

theorem mapM_convRow_floats : ∀ (rows : List (List ℚ)), (∀ r ∈ rows, r.length = 4) →
    ((rows.map fun row => PyVal.list (row.map PyVal.float)).mapM
      TwoQubitCorrelatedPauliConfig.convRow) = .ok rows := by
  intro rows
  induction rows with
  | nil => intro _; rfl
  | cons r rest ih =>
    intro hr
    simp only [List.map_cons, List.mapM_cons]
    rw [convRow_float_list r (hr r (List.mem_cons_self r rest))]
    rw [ih fun x hx => hr x (List.mem_cons_of_mem r hx)]
    rfl

theorem correlated_round_trip (c : TwoQubitCorrelatedPauliConfig)
    (hlen : c.matrix.length = 4) (hrow : ∀ row ∈ c.matrix, row.length = 4) :
    TwoQubitCorrelatedPauliConfig.from_mapping c.to_dict = .ok c := by
  show ((c.matrix.map fun row => PyVal.list (row.map PyVal.float)).mapM
      TwoQubitCorrelatedPauliConfig.convRow >>= fun converted =>
        Except.ok (⟨TwoQubitCorrelatedPauliConfig.padRows converted⟩ :
          TwoQubitCorrelatedPauliConfig)) = Except.ok c
  rw [mapM_convRow_floats c.matrix hrow]
  show Except.ok (⟨TwoQubitCorrelatedPauliConfig.padRows c.matrix⟩ :
      TwoQubitCorrelatedPauliConfig) = Except.ok c
  rw [padRows_of_length_four hlen]

/-- C10 counterexample: the round trip is not the identity on every
`SimpleNoiseConfig` value.  The dataclass constructor does not enforce the
4×4 annotation of `correlated_gate.matrix`, and a value holding the 1×1
matrix `((1.0,),)` comes back from `from_mapping(to_dict(…))` zero-padded
to 4×4, so the result differs from the original. -/
theorem simple_noise_round_trip_counterexample :
    SimpleNoiseConfig.from_mapping
        (SimpleNoiseConfig.to_dict { correlated_gate := ⟨[[1]]⟩ }) ≠
      .ok { correlated_gate := ⟨[[1]]⟩ } := by
  decide

/-- C10 (amended): for every `SimpleNoiseConfig` value whose
`correlated_gate.matrix` has the annotated 4×4 shape (as the default and
every `from_mapping`-produced value do),
`SimpleNoiseConfig.from_mapping (c.to_dict())` returns exactly `c`,
including all nested records and scalar fields. -/
theorem simple_noise_round_trip (c : SimpleNoiseConfig)
    (hlen : c.correlated_gate.matrix.length = 4)
    (hrow : ∀ row ∈ c.correlated_gate.matrix, row.length = 4) :
    SimpleNoiseConfig.from_mapping (SimpleNoiseConfig.to_dict c) = .ok c := by
  have h := correlated_round_trip c.correlated_gate hlen hrow
  show (TwoQubitCorrelatedPauliConfig.from_mapping c.correlated_gate.to_dict >>=
      fun correlated =>
        Except.ok { p_quantum_flip := c.p_quantum_flip, p_loss := c.p_loss,
                    readout := c.readout, gate := c.gate,
                    correlated_gate := correlated, idle_rate := c.idle_rate,
                    phase := c.phase, amplitude_damping := c.amplitude_damping,
                    loss_runtime := c.loss_runtime }) = Except.ok c
  rw [h]
  rfl

/-- Witness for C10 at the default configuration. -/
theorem simple_noise_round_trip_witness :
    SimpleNoiseConfig.from_mapping (SimpleNoiseConfig.to_dict {}) =
      .ok ({} : SimpleNoiseConfig) :=
  simple_noise_round_trip {} (by decide) (by decide)

/-!
### Theorems about `compute_repetition_code_metrics`  (claim C3)
-/

theorem recordIsError_eq_decide (d : ℕ) (s : ℤ) (r : MeasurementRecord) :
    recordIsError d s r = decide (claimLogicalError d s r) := by
  unfold recordIsError claimLogicalError
  by_cases hb : r.bits.length = d
  · cases ha : (r.bits.any fun b => ¬ (b = 0 ∨ b = 1)) with
    | true =>
      have hex : ∃ b ∈ r.bits, ¬ b = 0 ∧ ¬ b = 1 := by
        obtain ⟨b, h1, h2⟩ := List.any_eq_true.mp ha
        have h3 := of_decide_eq_true h2
        exact ⟨b, h1, by tauto⟩
      simp [hb, hex]
    | false =>
      have hex : ¬ ∃ b ∈ r.bits, ¬ b = 0 ∧ ¬ b = 1 := by
        rintro ⟨b, h1, h2, h3⟩
        have h4 : (r.bits.any fun b => ¬ (b = 0 ∨ b = 1)) = true := by
          rw [List.any_eq_true]
          refine ⟨b, h1, ?_⟩
          exact decide_eq_true (by tauto)
        rw [ha] at h4
        cases h4
      have hmaj : (if (r.bits.filter fun b => b = 1).length ≤
          (r.bits.filter fun b => b = 0).length then (0 : ℤ) else 1) ≠ -1 := by
        split_ifs <;> norm_num
      simp [hb, hex, hmaj]
  · simp [hb]

theorem recordIsError_replicate_same (d : ℕ) (s : ℤ) (hd : 0 < d) (hs : s = 0 ∨ s = 1)
    (r : MeasurementRecord) (hbits : r.bits = List.replicate d s) :
    recordIsError d s r = false := by
  unfold recordIsError
  rw [hbits]
  rcases hs with rfl | rfl
  · simp [List.filter_replicate, List.any_eq_true, List.mem_replicate]
  · simp [List.filter_replicate, List.any_eq_true, List.mem_replicate]
    omega

theorem recordIsError_replicate_flip (d : ℕ) (s : ℤ) (hd : 0 < d) (hs : s = 0 ∨ s = 1)
    (r : MeasurementRecord) (hbits : r.bits = List.replicate d (1 - s)) :
    recordIsError d s r = true := by
  unfold recordIsError
  rw [hbits]
  rcases hs with rfl | rfl
  · simp [List.filter_replicate, List.any_eq_true, List.mem_replicate]
    omega
  · simp [List.filter_replicate, List.any_eq_true, List.mem_replicate]

/-- C3: `compute_repetition_code_metrics` considers exactly the records
whose targets equal `(0, …, d−1)`; it raises `ValueError` when there are
none, and otherwise returns `logical_x_error_rate = E/S` where `S` counts
those records and `E` counts the ones whose bits list has length `d` and
either contains a value outside `{0,1}` or has a majority vote (ties to 0)
different from the logical state.  In particular, for a logical state in
`{0,1}` and positive distance, all-`s` records give rate `0.0` and
all-`(1−s)` records give rate `1.0`. -/
theorem repetition_metrics_spec (ms : List MeasurementRecord) (d : ℕ) (s : ℤ)
    (rounds : Option ℚ) :
    (dataRecordsFor ms d = [] →
      compute_repetition_code_metrics ms d s rounds =
        .error (.valueError
          "No measurement records matching the repetition code distance were found")) ∧
    (dataRecordsFor ms d ≠ [] →
      compute_repetition_code_metrics ms d s rounds =
        .ok { logical_x_error_rate :=
                (((dataRecordsFor ms d).filter fun r =>
                    decide (claimLogicalError d s r)).length : ℚ) /
                  ((dataRecordsFor ms d).length : ℚ),
              shots := (dataRecordsFor ms d).length,
              distance := (d : ℚ), rounds := rounds }) ∧
    (0 < d → (s = 0 ∨ s = 1) → dataRecordsFor ms d ≠ [] →
      (∀ r ∈ dataRecordsFor ms d, r.bits = List.replicate d s) →
      compute_repetition_code_metrics ms d s rounds =
        .ok { logical_x_error_rate := 0,
              shots := (dataRecordsFor ms d).length,
              distance := (d : ℚ), rounds := rounds }) ∧
    (0 < d → (s = 0 ∨ s = 1) → dataRecordsFor ms d ≠ [] →
      (∀ r ∈ dataRecordsFor ms d, r.bits = List.replicate d (1 - s)) →
      compute_repetition_code_metrics ms d s rounds =
        .ok { logical_x_error_rate := 1,
              shots := (dataRecordsFor ms d).length,
              distance := (d : ℚ), rounds := rounds }) := by
  refine ⟨?_, ?_, ?_, ?_⟩
  · intro h
    simp [compute_repetition_code_metrics, h]
  · intro h
    have hfc : (dataRecordsFor ms d).filter (recordIsError d s) =
        (dataRecordsFor ms d).filter fun r => decide (claimLogicalError d s r) :=
      List.filter_congr fun r _ => recordIsError_eq_decide d s r
    simp only [compute_repetition_code_metrics]
    rw [if_neg (by simpa [List.isEmpty_iff] using h), hfc]
  · intro hd hs hne hall
    have hf : (dataRecordsFor ms d).filter (recordIsError d s) = [] := by
      rw [List.filter_eq_nil_iff]
      intro r hr
      simp [recordIsError_replicate_same d s hd hs r (hall r hr)]
    simp only [compute_repetition_code_metrics]
    rw [if_neg (by simpa [List.isEmpty_iff] using hne), hf]
    simp
  · intro hd hs hne hall
    have hf : (dataRecordsFor ms d).filter (recordIsError d s) = dataRecordsFor ms d := by
      rw [List.filter_eq_self]
      intro r hr
      exact recordIsError_replicate_flip d s hd hs r (hall r hr)
    have hlen : ((dataRecordsFor ms d).length : ℚ) ≠ 0 := by
      simpa [List.length_eq_zero] using hne
    simp only [compute_repetition_code_metrics]
    rw [if_neg (by simpa [List.isEmpty_iff] using hne), hf]
    simp [div_self hlen]

/-- Witness for C3: one matching single-bit record equal to the logical
state gives rate 0, one flipped record gives rate 1. -/
theorem repetition_metrics_spec_witness :
    compute_repetition_code_metrics [⟨[0], [0]⟩] 1 0 Option.none =
      .ok { logical_x_error_rate := 0, shots := 1, distance := 1, rounds := Option.none } ∧
    compute_repetition_code_metrics [⟨[0], [1]⟩] 1 0 Option.none =
      .ok { logical_x_error_rate := 1, shots := 1, distance := 1, rounds := Option.none } :=
  ⟨(repetition_metrics_spec [⟨[0], [0]⟩] 1 0 Option.none).2.2.1 (by decide)
      (Or.inl rfl) (by decide) (by decide),
   (repetition_metrics_spec [⟨[0], [1]⟩] 1 0 Option.none).2.2.2 (by decide)
      (Or.inl rfl) (by decide) (by decide)⟩

/-!
### Theorems about blockade validation  (claim C1)
-/

theorem validateLoop_ok_iff (positions : List ℚ) (coords : Option (List (List ℚ)))
    (thr : ℚ) (prog : List (List (String × PyVal))) :
    validateLoop positions coords thr prog = .ok () ↔
      ∀ instr ∈ prog, validateInstr positions coords thr instr = .ok () := by
  induction prog with
  | nil => simp [validateLoop]
  | cons instr rest ih =>
    cases hv : validateInstr positions coords thr instr with
    | error e =>
      constructor
      · intro h
        exfalso
        have hstep : validateLoop positions coords thr (instr :: rest) = .error e := by
          simp [validateLoop, hv, Bind.bind, Except.bind]
        rw [hstep] at h
        cases h
      · intro h
        exfalso
        have := h instr (List.mem_cons_self instr rest)
        rw [hv] at this
        cases this
    | ok u =>
      cases u
      have hstep : validateLoop positions coords thr (instr :: rest) =
          validateLoop positions coords thr rest := by
        simp [validateLoop, hv, Bind.bind, Except.bind]
      rw [hstep, ih]
      constructor
      · intro h x hx
        rcases List.mem_cons.mp hx with rfl | hx2
        · exact hv
        · exact h x hx2
      · intro h x hx
        exact h x (List.mem_cons_of_mem instr hx)

theorem validateInstr_ok_iff (positions : List ℚ) (coords : Option (List (List ℚ)))
    (thr : ℚ) (instr : List (String × PyVal))
    (hiter : ∃ idxs, applyGateIndices instr = .ok idxs)
    (hin : (PyVal.getD instr "op" .none).isStr "ApplyGate" = true →
      ∀ idxs, applyGateIndices instr = .ok idxs → 2 ≤ idxs.length →
        ∀ i ∈ idxs, 0 ≤ i ∧ i < (positions.length : ℤ)) :
    validateInstr positions coords thr instr = .ok () ↔
      ((PyVal.getD instr "op" .none).isStr "ApplyGate" = true →
        ∀ idxs, applyGateIndices instr = .ok idxs → 2 ≤ idxs.length →
          ∀ p ∈ allPairs idxs,
            distExceeds positions coords p.1.toNat p.2.toNat thr = false) := by
  cases hop : (PyVal.getD instr "op" PyVal.none).isStr "ApplyGate" with
  | false =>
    have hok : validateInstr positions coords thr instr = .ok () := by
      unfold validateInstr
      rw [if_pos (by simp [hop])]
    simp [hok, hop]
  | true =>
    obtain ⟨idxs, hidxs⟩ := hiter
    have hv : validateInstr positions coords thr instr =
        (if idxs.length < 2 then .ok ()
         else
           match idxs.find? (fun idx =>
               decide (idx < 0 ∨ (positions.length : ℤ) ≤ idx)) with
           | some idx =>
             .error (.valueError ("Gate references qubit " ++ toString idx ++
               ", but device has positions 0.." ++ toString (positions.length - 1)))
           | Option.none =>
             match (allPairs idxs).find?
                 (fun p => distExceeds positions coords p.1.toNat p.2.toNat thr) with
             | some p =>
               .error (.valueError ("Gate on qubits " ++ toString p.1 ++ "/" ++
                 toString p.2 ++ " violates blockade radius"))
             | Option.none => .ok ()) := by
      unfold validateInstr
      rw [if_neg (by simp [hop]), hidxs]
      rfl
    by_cases hlen : idxs.length < 2
    · rw [hv, if_pos hlen]
      constructor
      · intro _ _ idxs' hidxs' hlen'
        rw [hidxs] at hidxs'
        have heq := Except.ok.inj hidxs'
        subst heq
        exact absurd hlen' (by omega)
      · intro _
        rfl
    · have h2 : 2 ≤ idxs.length := by omega
      have hrange : idxs.find? (fun idx =>
          decide (idx < 0 ∨ (positions.length : ℤ) ≤ idx)) = Option.none := by
        rw [List.find?_eq_none]
        intro x hx
        have hb := hin hop idxs hidxs h2 x hx
        simp only [decide_eq_true_eq]
        omega
      rw [hv, if_neg hlen, hrange]
      cases hfind : (allPairs idxs).find?
          (fun p => distExceeds positions coords p.1.toNat p.2.toNat thr) with
      | none =>
        constructor
        · intro _ _ idxs' hidxs' _ p hp
          rw [hidxs] at hidxs'
          have heq := Except.ok.inj hidxs'
          subst heq
          have := List.find?_eq_none.mp hfind p hp
          exact Bool.eq_false_iff.mpr this
        · intro _
          rfl
      | some p =>
        have hpmem : p ∈ allPairs idxs := List.mem_of_find?_eq_some hfind
        have hptrue := List.find?_some hfind
        constructor
        · intro h
          exact Except.noConfusion h
        · intro hR
          exact absurd (hR rfl idxs hidxs h2 p hpmem) (by simpa using hptrue)

/-- C1: for a device with non-empty positions and strictly positive
blockade radius, building a job request succeeds — and hands the program on
unchanged — exactly when no `ApplyGate` instruction naming two or more
(in-range) qubit indices has a pair separated by more than
`blockade_radius + 1e-12` (Euclidean over common coordinate dimensions when
both have coordinates, else 1D absolute difference); when the positions are
empty or the radius is nonpositive, validation always passes.  The
hypotheses restrict to programs whose `ApplyGate` target payloads are
iterable and whose coerced indices are in range, as the claim assumes. -/
theorem blockade_validation_spec (d : Device) (program : List (List (String × PyVal)))
    (shots : ℤ) (mt : Option ℤ)
    (hiter : ∀ instr ∈ program, ∃ idxs, applyGateIndices instr = .ok idxs)
    (hin : ∀ instr ∈ program, (PyVal.getD instr "op" .none).isStr "ApplyGate" = true →
      ∀ idxs, applyGateIndices instr = .ok idxs → 2 ≤ idxs.length →
        ∀ i ∈ idxs, 0 ≤ i ∧ i < (d.positions.length : ℤ)) :
    ((d.positions = [] ∨ d.blockade_radius ≤ 0) →
      ∃ r, d.build_job_request program shots mt = .ok r ∧
        r.program = program.map PyVal.dict) ∧
    (d.positions ≠ [] → 0 < d.blockade_radius →
      ((∃ r, d.build_job_request program shots mt = .ok r ∧
          r.program = program.map PyVal.dict) ↔
        ∀ instr ∈ program,
          (PyVal.getD instr "op" .none).isStr "ApplyGate" = true →
          ∀ idxs, applyGateIndices instr = .ok idxs → 2 ≤ idxs.length →
            ∀ p ∈ allPairs idxs,
              distExceeds d.positions (coordFilter d.coordinates) p.1.toNat p.2.toNat
                (d.blockade_radius + 1 / 1000000000000) = false)) := by
  constructor
  · intro hdeg
    have hval : _validate_blockade_constraints program d.positions d.blockade_radius
        d.coordinates = .ok () := by
      unfold _validate_blockade_constraints
      rw [if_pos]
      rcases hdeg with h | h
      · exact Or.inl (by simp [h])
      · exact Or.inr h
    have hbuild : d.build_job_request program shots mt =
        .ok { program := program.map PyVal.dict,
              hardware := { positions := d.positions, coordinates := d.coordinates,
                            blockade_radius := d.blockade_radius,
                            native_gates := d.native_gates,
                            timing_limits := d.timing_limits.getD {} },
              device_id := d.id, profile := d.profile, shots := shots,
              max_threads := mt, noise := d.noise } := by
      unfold Device.build_job_request
      rw [hval]
      rfl
    exact ⟨_, hbuild, rfl⟩
  · intro hpos hrad
    have hval_iff : _validate_blockade_constraints program d.positions d.blockade_radius
        d.coordinates = .ok () ↔
        ∀ instr ∈ program,
          (PyVal.getD instr "op" .none).isStr "ApplyGate" = true →
          ∀ idxs, applyGateIndices instr = .ok idxs → 2 ≤ idxs.length →
            ∀ p ∈ allPairs idxs,
              distExceeds d.positions (coordFilter d.coordinates) p.1.toNat p.2.toNat
                (d.blockade_radius + 1 / 1000000000000) = false := by
      unfold _validate_blockade_constraints
      rw [if_neg (by
        simp only [List.isEmpty_iff, not_or, not_le]
        exact ⟨hpos, hrad⟩)]
      rw [validateLoop_ok_iff]
      constructor
      · intro h instr hm
        exact (validateInstr_ok_iff _ _ _ instr (hiter instr hm) (hin instr hm)).mp
          (h instr hm)
      · intro h instr hm
        exact (validateInstr_ok_iff _ _ _ instr (hiter instr hm) (hin instr hm)).mpr
          (h instr hm)
    constructor
    · rintro ⟨r, hr, _⟩
      refine hval_iff.mp ?_
      cases hv : _validate_blockade_constraints program d.positions d.blockade_radius
          d.coordinates with
      | error e =>
        exfalso
        unfold Device.build_job_request at hr
        rw [hv] at hr
        exact Except.noConfusion hr
      | ok u =>
        cases u
        rfl
    · intro hNV
      have hval := hval_iff.mpr hNV
      have hbuild : d.build_job_request program shots mt =
          .ok { program := program.map PyVal.dict,
                hardware := { positions := d.positions, coordinates := d.coordinates,
                              blockade_radius := d.blockade_radius,
                              native_gates := d.native_gates,
                              timing_limits := d.timing_limits.getD {} },
                device_id := d.id, profile := d.profile, shots := shots,
                max_threads := mt, noise := d.noise } := by
        unfold Device.build_job_request
        rw [hval]
        rfl
      exact ⟨_, hbuild, rfl⟩

/-- Concrete device for the C1 witness: two unit-spaced sites, blockade
radius 1.5. -/
def devC1 : Device :=
  { id := "local-cpu", profile := Option.none, positions := [0, 1],
    blockade_radius := 3 / 2 }

/-- Concrete one-gate program for the C1 witness. -/
def progC1 : List (List (String × PyVal)) :=
  [[("op", .str "ApplyGate"), ("name", .str "CX"),
    ("targets", .list [.int 0, .int 1]), ("param", .float 0)]]

/-- Witness for C1: the in-threshold two-qubit gate on the concrete device
is accepted and the program is passed through unchanged. -/
theorem blockade_validation_spec_witness :
    ∃ r, devC1.build_job_request progC1 1 Option.none = .ok r ∧
      r.program = progC1.map PyVal.dict := by
  have hiter : ∀ instr ∈ progC1, ∃ idxs, applyGateIndices instr = .ok idxs := by
    intro instr hm
    simp only [progC1, List.mem_singleton] at hm
    subst hm
    exact ⟨[0, 1], rfl⟩
  have hin : ∀ instr ∈ progC1,
      (PyVal.getD instr "op" .none).isStr "ApplyGate" = true →
      ∀ idxs, applyGateIndices instr = .ok idxs → 2 ≤ idxs.length →
        ∀ i ∈ idxs, 0 ≤ i ∧ i < (devC1.positions.length : ℤ) := by
    intro instr hm _ idxs hidx _ i hi
    simp only [progC1, List.mem_singleton] at hm
    subst hm
    rw [show applyGateIndices [("op", .str "ApplyGate"), ("name", .str "CX"),
        ("targets", .list [.int 0, .int 1]), ("param", .float 0)] =
        Except.ok [0, 1] from rfl] at hidx
    have heq := Except.ok.inj hidx
    subst heq
    rcases List.mem_cons.mp hi with rfl | hi2
    · exact ⟨by norm_num, by norm_num [devC1]⟩
    · rcases List.mem_singleton.mp hi2 with rfl
      exact ⟨by norm_num, by norm_num [devC1]⟩
  refine ((blockade_validation_spec devC1 progC1 1 Option.none hiter hin).2
    (by simp [devC1]) (by norm_num [devC1])).mpr ?_
  intro instr hm _ idxs hidx _ p hp
  simp only [progC1, List.mem_singleton] at hm
  subst hm
  rw [show applyGateIndices [("op", .str "ApplyGate"), ("name", .str "CX"),
      ("targets", .list [.int 0, .int 1]), ("param", .float 0)] =
      Except.ok [0, 1] from rfl] at hidx
  have heq := Except.ok.inj hidx
  subst heq
  rw [show allPairs [(0 : ℤ), 1] = [(0, 1)] from rfl] at hp
  rcases List.mem_singleton.mp hp with rfl
  show distExceeds [0, 1] Option.none 0 1 (3 / 2 + 1 / 1000000000000) = false
  simp only [distExceeds, List.getD]
  norm_num

end NeutralAtomVM
